import Mathlib

/- Verification development for the CSV-to-ICS converter (src/main.py).
   Python integers are modelled as Nat (no machine overflow occurs in the
   program).  Python datetime values are modelled at second resolution:
   both accepted strptime layouts yield zero time-of-day with zero
   microseconds, and the ICS instant format prints nothing finer than
   seconds, so no reachable value carries a sub-second component. -/

/-- Model of a Python `datetime` value at second resolution. -/
structure PyDateTime where
  year : Nat
  month : Nat
  day : Nat
  hour : Nat
  minute : Nat
  second : Nat
  deriving DecidableEq, Repr

/-- Gregorian leap-year test, as implemented by Python's `datetime`. -/
def isLeap (y : Nat) : Bool :=
  decide (y % 4 = 0 ∧ (y % 100 ≠ 0 ∨ y % 400 = 0))

/-- Number of days in a month, as validated by Python's `datetime` constructor. -/
def daysInMonth (y m : Nat) : Nat :=
  if m = 2 then (if isLeap y then 29 else 28)
  else if m = 4 ∨ m = 6 ∨ m = 9 ∨ m = 11 then 30
  else 31

/-- Split a character list at every occurrence of the separator
(the separator-char analogue of Python `str.split` on one character). -/
def splitOnChar (sep : Char) : List Char → List (List Char)
  | [] => [[]]
  | c :: rest =>
    let r := splitOnChar sep rest
    if c = sep then [] :: r
    else
      match r with
      | [] => [[c]]
      | g :: gs => (c :: g) :: gs

/-- Split a string at every occurrence of the separator character. -/
def splitFields (sep : Char) (s : String) : List String :=
  (splitOnChar sep s.data).map (fun l => ⟨l⟩)

/-- Decimal value of a digit list (most significant first). -/
def digitVal (l : List Char) : Nat :=
  l.foldl (fun a c => a * 10 + (c.toNat - 48)) 0

/-- All characters are ASCII decimal digits. -/
def allDigits (l : List Char) : Bool :=
  l.all (fun c => decide ('0' ≤ c ∧ c ≤ '9'))

/-- Field matcher for strptime `%d`: the CPython regular expression
`3[01]|[12]\d|0[1-9]|[1-9]` — one digit 1-9 or two digits 01-31. -/
def fieldDay (l : List Char) : Option Nat :=
  if allDigits l = true ∧
      (l.length = 1 ∧ 1 ≤ digitVal l ∨
       l.length = 2 ∧ 1 ≤ digitVal l ∧ digitVal l ≤ 31) then
    some (digitVal l)
  else none

/-- Field matcher for strptime `%m`: the CPython regular expression
`1[0-2]|0[1-9]|[1-9]` — one digit 1-9 or two digits 01-12. -/
def fieldMonth (l : List Char) : Option Nat :=
  if allDigits l = true ∧
      (l.length = 1 ∧ 1 ≤ digitVal l ∨
       l.length = 2 ∧ 1 ≤ digitVal l ∧ digitVal l ≤ 12) then
    some (digitVal l)
  else none

/-- Field matcher for strptime `%Y`: exactly four decimal digits. -/
def fieldYear (l : List Char) : Option Nat :=
  if allDigits l = true ∧ l.length = 4 then some (digitVal l) else none

/-- Validation performed by the Python `datetime` constructor: year 1-9999,
month 1-12, day within the month.  On success the time-of-day is midnight,
exactly as `strptime` leaves it for a date-only format. -/
def mkValidDate (y m d : Nat) : Option PyDateTime :=
  if 1 ≤ y ∧ y ≤ 9999 ∧ 1 ≤ m ∧ m ≤ 12 ∧ 1 ≤ d ∧ d ≤ daysInMonth y m then
    some ⟨y, m, d, 0, 0, 0⟩
  else none

/-- Model of `datetime.strptime(s, "%d/%m/%Y")`: full-string match of
day `/` month `/` four-digit year, then constructor validation.
Since `/` cannot occur inside a numeric field, the anchored regular
expression match decomposes exactly at the separator positions. -/
def parseDMY (s : String) : Option PyDateTime :=
  match splitOnChar '/' s.data with
  | [ds, ms, ys] =>
    match fieldDay ds, fieldMonth ms, fieldYear ys with
    | some d, some m, some y => mkValidDate y m d
    | _, _, _ => none
  | _ => none

/-- Model of `datetime.strptime(s, "%Y-%m-%d")`. -/
def parseYMD (s : String) : Option PyDateTime :=
  match splitOnChar '-' s.data with
  | [ys, ms, ds] =>
    match fieldYear ys, fieldMonth ms, fieldDay ds with
    | some y, some m, some d => mkValidDate y m d
    | _, _, _ => none
  | _ => none

/-- The two strptime layouts tried by `parse_date`, in source order. -/
inductive DateFmt where
  | dmy
  | ymd
  deriving DecidableEq

/-- Dispatch one strptime attempt (`datetime.strptime(date_str, fmt)`). -/
def strptime (fmt : DateFmt) (s : String) : Option PyDateTime :=
  match fmt with
  | .dmy => parseDMY s
  | .ymd => parseYMD s

/-- The loop body of `parse_date`: try each format, return the first hit. -/
def tryFormats (s : String) : List DateFmt → Option PyDateTime
  | [] => none
  | f :: fs =>
    match strptime f s with
    | some d => some d
    | none => tryFormats s fs

/-- Model of `parse_date` (src/main.py lines 11-18): try `%d/%m/%Y`, then
`%Y-%m-%d`; `None` when neither matches. -/
def parse_date (s : String) : Option PyDateTime :=
  tryFormats s [DateFmt.dmy, DateFmt.ymd]

/-- Zero-pad a number to the given width (behaviour of strftime `%Y`, `%m`, …). -/
def natPad (width n : Nat) : String :=
  let s := toString n
  String.mk (List.replicate (width - s.length) '0') ++ s

/-- Model of `format_ics_date` (src/main.py lines 20-21):
`dt.strftime("%Y%m%dT%H%M%S")`. -/
def format_ics_date (dt : PyDateTime) : String :=
  natPad 4 dt.year ++ natPad 2 dt.month ++ natPad 2 dt.day ++ "T" ++
    natPad 2 dt.hour ++ natPad 2 dt.minute ++ natPad 2 dt.second

/-- Successor day in the Gregorian calendar. -/
def nextDay (dt : PyDateTime) : PyDateTime :=
  if dt.day < daysInMonth dt.year dt.month then { dt with day := dt.day + 1 }
  else if dt.month < 12 then { dt with day := 1, month := dt.month + 1 }
  else { dt with day := 1, month := 1, year := dt.year + 1 }

/-- Add a number of days to a datetime. -/
def addDays : PyDateTime → Nat → PyDateTime
  | dt, 0 => dt
  | dt, n + 1 => addDays (nextDay dt) n

/-- Model of `dt + timedelta(minutes=n)`: minutes carry into hours and days,
the seconds component is unchanged. -/
def addMinutes (dt : PyDateTime) (n : Nat) : PyDateTime :=
  let total := dt.hour * 60 + dt.minute + n
  let dt' := addDays dt (total / 1440)
  { dt' with hour := total % 1440 / 60, minute := total % 1440 % 60 }

/-- Model of `generate_event_block` (src/main.py lines 23-45).  The two
effectful inputs of the Python function are made explicit parameters:
`uid` stands for the string rendering of the fresh `uuid.uuid4()` draw and
`now` for `datetime.now()` (stamped with the same instant formatter). -/
def generate_event_block (subject : String) (start_date : PyDateTime)
    (uid : String) (now : PyDateTime) : List String :=
  let start_event := { start_date with hour := 9, minute := 0, second := 0 }
  let end_event := addMinutes start_event 30
  ["BEGIN:VEVENT",
   "UID:" ++ uid,
   "DTSTAMP:" ++ format_ics_date now,
   "DTSTART;TZID=America/Sao_Paulo:" ++ format_ics_date start_event,
   "DTEND;TZID=America/Sao_Paulo:" ++ format_ics_date end_event,
   "SUMMARY:" ++ subject,
   "STATUS:CONFIRMED",
   "CLASS:PUBLIC",
   "BEGIN:VALARM",
   "ACTION:DISPLAY",
   "TRIGGER;RELATED=START:-PT15M",
   "DESCRIPTION:Lembrete gerado via script CSV",
   "END:VALARM",
   "END:VEVENT"]

/-- The fixed document header of `generate_ics_structure` (src/main.py
lines 48-63): envelope metadata followed by the one timezone block. -/
def icsHeader : List String :=
  ["BEGIN:VCALENDAR",
   "PRODID:-//CSV-to-ICS//Github//PT-BR",
   "VERSION:2.0",
   "METHOD:PUBLISH",
   "X-WR-CALNAME:Eventos Importados",
   "BEGIN:VTIMEZONE",
   "TZID:America/Sao_Paulo",
   "BEGIN:STANDARD",
   "DTSTART:16010101T000000",
   "TZOFFSETTO:-0300",
   "TZOFFSETFROM:-0300",
   "TZNAME:-03",
   "END:STANDARD",
   "END:VTIMEZONE"]

/-- Model of `generate_ics_structure` (src/main.py lines 47-64):
`header + events_content + ["END:VCALENDAR"]`. -/
def generate_ics_structure (events_content : List String) : List String :=
  icsHeader ++ events_content ++ ["END:VCALENDAR"]

/-- Whitespace characters removed by Python `str.strip()` (ASCII range;
no non-ASCII whitespace occurs in the development). -/
def isPySpace (c : Char) : Bool :=
  decide (c = ' ' ∨ c = '\t' ∨ c = '\n' ∨ c = '\r' ∨ c = '\x0b' ∨ c = '\x0c')

/-- Model of Python `str.strip()`: drop whitespace from both ends only;
interior characters — including interior line breaks — are kept. -/
def pythonStrip (s : String) : String :=
  ⟨((s.data.dropWhile isPySpace).reverse.dropWhile isPySpace).reverse⟩

/-- Model of Python `str.lower()` (ASCII case mapping suffices here). -/
def pythonLower (s : String) : String :=
  ⟨s.data.map Char.toLower⟩

/- Row model.  `csv.DictReader` yields a mapping whose keys are the raw
header fields; a key is absent (`None` value via `restval`) when the data
row is shorter than the header.  A `RawRow` lists the (key, value) pairs in
insertion order; the key is `none` for the `restkey` entry holding extra
fields, and a value is `none` when the row was short. -/

/-- One row as produced by `csv.DictReader`. -/
def RawRow : Type := List (Option String × Option String)

/-- Result of a Python computation that may raise: either a value or an
uncaught exception (identified by its message). -/
inductive PyResult (α : Type) where
  | ok (val : α)
  | exn (msg : String)
  deriving DecidableEq, Repr

/-- Insert into an insertion-ordered string dictionary, overwriting the
value when the key is already present (Python `dict` assignment). -/
def dictInsert : List (String × String) → String → String → List (String × String)
  | [], k, v => [(k, v)]
  | (k', v') :: rest, k, v =>
    if k' = k then (k, v) :: rest else (k', v') :: dictInsert rest k v

/-- Model of Python `dict.get`: the value stored under the key, if any. -/
def dictGet (d : List (String × String)) (k : String) : Option String :=
  (d.find? (fun p => decide (p.1 = k))).map (fun p => p.2)

/-- Left-to-right evaluation of the dict comprehension in `row_clean`. -/
def rowCleanAux : List (String × String) → RawRow → PyResult (List (String × String))
  | acc, [] => .ok acc
  | acc, (k, v) :: rest =>
    match k with
    | none => rowCleanAux acc rest
    | some ks =>
      if ks = "" then rowCleanAux acc rest
      else
        match v with
        | none => .exn "AttributeError"
        | some vs =>
          rowCleanAux (dictInsert acc (pythonLower (pythonStrip ks)) (pythonStrip vs)) rest

/-- Model of src/main.py line 90:
`row_clean = {k.strip().lower(): v.strip() for k, v in row.items() if k}`.
A falsy key (`None` restkey or empty string) is filtered out before its
value is touched; a `None` value under a truthy key makes `v.strip()`
raise `AttributeError`, which no handler inside the loop catches. -/
def rowClean (r : RawRow) : PyResult (List (String × String)) :=
  rowCleanAux [] r

/-- Model of the row loop of `process_csv` (src/main.py lines 89-116).
`tSubj` and `tDate` are the already-normalized target column names,
`uidStream idx` is the `uuid.uuid4()` draw consumed by the next accepted
row, and `now` is the fixed `datetime.now()` wall clock.  The returned
pair is the flat `ics_events` line list and `processed_count`. -/
def processRows (tSubj tDate dflt : String) (uidStream : Nat → String)
    (now : PyDateTime) : List RawRow → Nat → PyResult (List String × Nat)
  | [], _ => .ok ([], 0)
  | r :: rest, idx =>
    match rowClean r with
    | .exn e => .exn e
    | .ok d =>
      let subjectValue :=
        match dictGet d tSubj with
        | none => dflt
        | some v => if v = "" then dflt else v
      match dictGet d tDate with
      | none => processRows tSubj tDate dflt uidStream now rest idx
      | some ds =>
        if ds = "" then processRows tSubj tDate dflt uidStream now rest idx
        else
          match parse_date ds with
          | none => processRows tSubj tDate dflt uidStream now rest idx
          | some dt =>
            match processRows tSubj tDate dflt uidStream now rest (idx + 1) with
            | .exn e => .exn e
            | .ok (ls, n) =>
              .ok (generate_event_block subjectValue dt (uidStream idx) now ++ ls, n + 1)

/-- The row loop together with the target-name normalization of
src/main.py lines 86-87: `col_subject.lower()` and `col_date.lower()`
(lower-cased but, unlike the header fields, not stripped). -/
def processCsvRows (colSubject colDate defaultSubject : String)
    (uidStream : Nat → String) (now : PyDateTime) (rows : List RawRow) :
    PyResult (List String × Nat) :=
  processRows (pythonLower colSubject) (pythonLower colDate) defaultSubject
    uidStream now rows 0

/-- Terminal outcome of one row under the loop of `process_csv`; the
`fatalShape` outcome is the uncaught `AttributeError` of `row_clean`. -/
inductive RowOutcome where
  | accepted
  | skippedNoDate
  | skippedInvalidDate
  | fatalShape
  deriving DecidableEq, Repr

/-- The outcome the loop body assigns to a single row (the subject column
never influences acceptance, only the emitted subject text). -/
def rowOutcome (tDate : String) (r : RawRow) : RowOutcome :=
  match rowClean r with
  | .exn _ => .fatalShape
  | .ok d =>
    match dictGet d tDate with
    | none => .skippedNoDate
    | some ds =>
      if ds = "" then .skippedNoDate
      else
        match parse_date ds with
        | none => .skippedInvalidDate
        | some _ => .accepted

/- Input-file model.  The file is a list of logical lines, each a list of
byte values.  Text decoding is modelled line-aligned: the interpreter
decodes bytes as the reader pulls records, and records are lines here
(no quoted multi-line fields occur in the development), so a decode
failure surfaces at the first undecodable line that is read. -/

/-- One physical line of the input file, as raw bytes. -/
def ByteLine : Type := List Nat

/-- Is the byte a UTF-8 continuation byte (0x80-0xBF)? -/
def utf8Cont (b : Nat) : Bool :=
  decide (0x80 ≤ b ∧ b ≤ 0xBF)

/-- Strict UTF-8 decoding to code points, as Python's `utf-8` codec:
overlong forms, surrogates, and values above 0x10FFFF are rejected. -/
def utf8Points : List Nat → Option (List Nat)
  | [] => some []
  | b :: rest =>
    if b < 0x80 then
      (utf8Points rest).map (fun ps => b :: ps)
    else if b < 0xC2 then none
    else if b < 0xE0 then
      match rest with
      | b1 :: rest' =>
        if utf8Cont b1 then
          (utf8Points rest').map (fun ps => ((b - 0xC0) * 64 + (b1 - 0x80)) :: ps)
        else none
      | _ => none
    else if b < 0xF0 then
      match rest with
      | b1 :: b2 :: rest' =>
        let lo1 : Nat := if b = 0xE0 then 0xA0 else 0x80
        let hi1 : Nat := if b = 0xED then 0x9F else 0xBF
        if lo1 ≤ b1 ∧ b1 ≤ hi1 ∧ utf8Cont b2 = true then
          (utf8Points rest').map
            (fun ps => ((b - 0xE0) * 4096 + (b1 - 0x80) * 64 + (b2 - 0x80)) :: ps)
        else none
      | _ => none
    else if b < 0xF5 then
      match rest with
      | b1 :: b2 :: b3 :: rest' =>
        let lo1 : Nat := if b = 0xF0 then 0x90 else 0x80
        let hi1 : Nat := if b = 0xF4 then 0x8F else 0xBF
        if lo1 ≤ b1 ∧ b1 ≤ hi1 ∧ utf8Cont b2 = true ∧ utf8Cont b3 = true then
          (utf8Points rest').map
            (fun ps =>
              ((b - 0xF0) * 262144 + (b1 - 0x80) * 4096 + (b2 - 0x80) * 64 + (b3 - 0x80)) :: ps)
        else none
      | _ => none
    else none

/-- Decode one line under the `utf-8` codec. -/
def utf8DecodeLine (l : ByteLine) : Option String :=
  (utf8Points l).map (fun ps => ⟨ps.map Char.ofNat⟩)

/-- One byte under the `cp1252` codec: ASCII and 0xA0-0xFF map through;
the 0x80-0x9F block uses the Windows-1252 table, in which bytes
0x81, 0x8D, 0x8F, 0x90 and 0x9D are undefined and raise. -/
def cp1252Byte (b : Nat) : Option Nat :=
  if b < 0x80 then some b
  else if 0xA0 ≤ b ∧ b ≤ 0xFF then some b
  else
    match b with
    | 0x80 => some 0x20AC
    | 0x82 => some 0x201A
    | 0x83 => some 0x0192
    | 0x84 => some 0x201E
    | 0x85 => some 0x2026
    | 0x86 => some 0x2020
    | 0x87 => some 0x2021
    | 0x88 => some 0x02C6
    | 0x89 => some 0x2030
    | 0x8A => some 0x0160
    | 0x8B => some 0x2039
    | 0x8C => some 0x0152
    | 0x8E => some 0x017D
    | 0x91 => some 0x2018
    | 0x92 => some 0x2019
    | 0x93 => some 0x201C
    | 0x94 => some 0x201D
    | 0x95 => some 0x2022
    | 0x96 => some 0x2013
    | 0x97 => some 0x2014
    | 0x98 => some 0x02DC
    | 0x99 => some 0x2122
    | 0x9A => some 0x0161
    | 0x9B => some 0x203A
    | 0x9C => some 0x0153
    | 0x9E => some 0x017E
    | 0x9F => some 0x0178
    | _ => none

/-- Decode one line under the `cp1252` codec. -/
def cp1252DecodeLine (l : ByteLine) : Option String :=
  (l.mapM cp1252Byte).map (fun ps => ⟨ps.map Char.ofNat⟩)

/-- Decode every line of the file, failing on the first undecodable one. -/
def decodeAll (dec : ByteLine → Option String) (lines : List ByteLine) :
    Option (List String) :=
  lines.mapM dec

/-- Outcome of the encoding probe `next(reader)` on src/main.py line 77. -/
inductive ProbeResult where
  | ok
  | decodeFail
  | stopIteration
  deriving DecidableEq, Repr

/-- After the header, `DictReader.__next__` keeps reading (and hence
decoding) lines until the first non-blank record, or raises
`StopIteration` at end of file. -/
def probeScan : List ByteLine → ProbeResult
  | [] => .stopIteration
  | l :: ls =>
    match utf8DecodeLine l with
    | none => .decodeFail
    | some "" => probeScan ls
    | some _ => .ok

/-- Model of the probe on src/main.py line 77: `next(reader)` reads (and
UTF-8-decodes) the header line and then the first non-blank data record.
Only a `UnicodeDecodeError` raised here is caught by the fallback handler
on line 79. -/
def probe : List ByteLine → ProbeResult
  | [] => .stopIteration
  | l0 :: rest =>
    match utf8DecodeLine l0 with
    | none => .decodeFail
    | some _ => probeScan rest

/-- Split a decoded line into CSV fields at the delimiter (the quoting
mechanism of the `csv` module is not exercised by this development). -/
def csvSplit (delim : Char) (s : String) : List String :=
  splitFields delim s

/-- Model of `dict(zip(fieldnames, row))` with `restval=None`: each header
field is paired with the value at its index, `none` when the row is
short; extra values land under the `restkey` `None` key and are dropped
by the `if k` filter of `row_clean`, so they are omitted here. -/
def makeRawRow (fieldnames : List String) (vals : List String) : RawRow :=
  fieldnames.mapIdx (fun i f => (some f, vals.get? i))

/-- Model of the body of the `with file_obj:` block plus the final
assembly and write (src/main.py lines 83-121) on already-decoded text:
header split, blank records skipped, each row processed, then
`generate_ics_structure` joined with CRLF.  The returned string is the
full content written to the output file. -/
def runOnText (delim : Char) (colSubject colDate defaultSubject : String)
    (uidStream : Nat → String) (now : PyDateTime) (tls : List String) :
    PyResult (String × Nat) :=
  let fieldnames :=
    match tls with
    | [] => []
    | h :: _ => csvSplit delim h
  let dataLines :=
    match tls with
    | [] => []
    | _ :: t => t
  let rows := (dataLines.filter (fun l => decide (l ≠ ""))).map
    (fun l => makeRawRow fieldnames (csvSplit delim l))
  match processCsvRows colSubject colDate defaultSubject uidStream now rows with
  | .exn e => .exn e
  | .ok (ls, n) => .ok (String.intercalate "\r\n" (generate_ics_structure ls), n)

/-- The whole `try` body of `process_csv` on an existing input file
(src/main.py lines 74-121).  If the probe raises `UnicodeDecodeError`,
the run is retried under cp1252; a decode failure anywhere else — in
particular a UTF-8 failure past the probe, or any cp1252 failure — is an
uncaught exception. -/
def runBody (delim : Char) (colSubject colDate defaultSubject : String)
    (uidStream : Nat → String) (now : PyDateTime) (lines : List ByteLine) :
    PyResult (String × Nat) :=
  match probe lines with
  | .stopIteration => .exn "StopIteration"
  | .decodeFail =>
    match decodeAll cp1252DecodeLine lines with
    | none => .exn "UnicodeDecodeError: cp1252"
    | some tls => runOnText delim colSubject colDate defaultSubject uidStream now tls
  | .ok =>
    match decodeAll utf8DecodeLine lines with
    | none => .exn "UnicodeDecodeError: utf-8"
    | some tls => runOnText delim colSubject colDate defaultSubject uidStream now tls

/-- Observable result of one run: the content written to the output file
(if any), the critical log message (if the run aborted), and the
reported count of accepted rows. -/
structure RunResult where
  written : Option String
  fatal : Option String
  count : Nat
  deriving DecidableEq, Repr

/-- The two `except` handlers at the top of `process_csv` (src/main.py
lines 125-128): any uncaught exception aborts the run before the single
output write. -/
def finishRun : PyResult (String × Nat) → RunResult
  | .exn e => ⟨none, some e, 0⟩
  | .ok (content, n) => ⟨some content, none, n⟩

/-- Model of `process_csv` (src/main.py lines 66-128).  The input file is
`none` when missing (the `FileNotFoundError` handler, line 125); the
document is assembled wholly in memory and written once, so an aborted
run writes nothing. -/
def process_csv (input : Option (List ByteLine)) (delim : Char)
    (colSubject colDate defaultSubject : String) (uidStream : Nat → String)
    (now : PyDateTime) : RunResult :=
  match input with
  | none => ⟨none, some "FileNotFoundError", 0⟩
  | some lines =>
    finishRun (runBody delim colSubject colDate defaultSubject uidStream now lines)

/-- ASCII bytes of a string (used to build concrete input files). -/
def asciiBytes (s : String) : ByteLine :=
  s.data.map Char.toNat

/-- Concrete UID stream used by witnesses: distinct draws are distinct
strings by length. -/
def uidEx : Nat → String := fun n => ⟨List.replicate n 'a'⟩

/-- Concrete conversion wall clock used by witnesses. -/
def nowEx : PyDateTime := ⟨2024, 1, 1, 12, 0, 0⟩

/-- The four input rows of the end-to-end scenario. -/
def scenarioRows : List RawRow :=
  [[(some "Assunto", some "Dentist"), (some "Data", some "20/05/2024")],
   [(some "Assunto", some ""), (some "Data", some "21/05/2024")],
   [(some "Assunto", some "X"), (some "Data", some "")],
   [(some "Assunto", some "Y"), (some "Data", some "bad-date")]]

/-- Input file whose first two lines are valid UTF-8 but whose third line
is a lone 0xE9 byte — invalid UTF-8, yet a perfectly valid cp1252 byte. -/
def badTailFile : List ByteLine :=
  [asciiBytes "Assunto;Data", asciiBytes "x;20/05/2024", [0xE9]]

/-- Number of occurrences of one exact line in a line list. -/
def countLine (t : String) (ls : List String) : Nat :=
  ls.countP (fun l => decide (l = t))

/-- The unique-identifier line of an event block (index 1, `UID:...`). -/
def uidOf (block : List String) : Option String :=
  block.get? 1

/- Helper lemmas. -/

theorem string_data_ext {s t : String} (h : s.data = t.data) : s = t := by
  cases s
  cases t
  exact congrArg String.mk h

theorem string_data_append (s t : String) : (s ++ t).data = s.data ++ t.data := by
  cases s
  cases t
  rfl

theorem string_append_left_cancel {a b c : String} (h : a ++ b = a ++ c) : b = c := by
  apply string_data_ext
  have h2 := congrArg String.data h
  rw [string_data_append, string_data_append] at h2
  exact List.append_cancel_left h2

theorem ne_lit_of_append (p u t : String) (c : Char)
    (hc : p.data.head? = some c) (ht : t.data.head? ≠ some c) : p ++ u ≠ t := by
  intro h
  apply ht
  rw [← h, string_data_append]
  cases hdata : p.data with
  | nil => rw [hdata] at hc; cases hc
  | cons a as =>
    rw [hdata] at hc
    rw [List.cons_append]
    simpa using hc

theorem countLine_vevent_block (s : String) (d : PyDateTime) (u : String)
    (n : PyDateTime) :
    countLine "BEGIN:VEVENT" (generate_event_block s d u n) = 1 := by
  have h1 : ∀ x : String, ("UID:" ++ x) ≠ "BEGIN:VEVENT" :=
    fun x => ne_lit_of_append _ _ _ 'U' rfl (by decide)
  have h2 : ∀ x : String, ("DTSTAMP:" ++ x) ≠ "BEGIN:VEVENT" :=
    fun x => ne_lit_of_append _ _ _ 'D' rfl (by decide)
  have h3 : ∀ x : String, ("DTSTART;TZID=America/Sao_Paulo:" ++ x) ≠ "BEGIN:VEVENT" :=
    fun x => ne_lit_of_append _ _ _ 'D' rfl (by decide)
  have h4 : ∀ x : String, ("DTEND;TZID=America/Sao_Paulo:" ++ x) ≠ "BEGIN:VEVENT" :=
    fun x => ne_lit_of_append _ _ _ 'D' rfl (by decide)
  have h5 : ∀ x : String, ("SUMMARY:" ++ x) ≠ "BEGIN:VEVENT" :=
    fun x => ne_lit_of_append _ _ _ 'S' rfl (by decide)
  simp +decide [generate_event_block, countLine, List.countP_cons, h1, h2, h3, h4, h5]

theorem countLine_join_blocks (f : (String × PyDateTime) × String × PyDateTime → List String)
    (hf : ∀ p, countLine "BEGIN:VEVENT" (f p) = 1) :
    ∀ ps : List ((String × PyDateTime) × String × PyDateTime),
      countLine "BEGIN:VEVENT" (List.flatten (ps.map f)) = ps.length := by
  intro ps
  induction ps with
  | nil => rfl
  | cons p ps ih =>
    have hp := hf p
    simp only [countLine] at hp ih ⊢
    simp [List.countP_append, hp, ih, Nat.add_comm]

theorem addMinutes_nine_thirty (y m d s : Nat) :
    addMinutes ⟨y, m, d, 9, 0, s⟩ 30 = ⟨y, m, d, 9, 30, s⟩ := by
  unfold addMinutes
  norm_num
  simp [addDays]

/-- C1: for every valid row (a date string the interpreter accepts), the
event block built from it has `DTSTART` at 09:00:00 on the interpreted
calendar date — whatever time-of-day the interpreted value carried — and
`DTEND` equal to that start instant plus 30 minutes, i.e. 09:30:00 on the
same date (`start_event + timedelta(minutes=30)` performs exactly that
addition, as the last conjunct states). -/
theorem event_block_time_window (str : String) (d : PyDateTime)
    (subj uid : String) (now : PyDateTime)
    (_hvalid : parse_date str = some d) :
    generate_event_block subj d uid now =
      ["BEGIN:VEVENT",
       "UID:" ++ uid,
       "DTSTAMP:" ++ format_ics_date now,
       "DTSTART;TZID=America/Sao_Paulo:" ++
         format_ics_date ⟨d.year, d.month, d.day, 9, 0, 0⟩,
       "DTEND;TZID=America/Sao_Paulo:" ++
         format_ics_date ⟨d.year, d.month, d.day, 9, 30, 0⟩,
       "SUMMARY:" ++ subj,
       "STATUS:CONFIRMED",
       "CLASS:PUBLIC",
       "BEGIN:VALARM",
       "ACTION:DISPLAY",
       "TRIGGER;RELATED=START:-PT15M",
       "DESCRIPTION:Lembrete gerado via script CSV",
       "END:VALARM",
       "END:VEVENT"]
    ∧ addMinutes ⟨d.year, d.month, d.day, 9, 0, 0⟩ 30
        = ⟨d.year, d.month, d.day, 9, 30, 0⟩ := by
  refine ⟨?_, addMinutes_nine_thirty d.year d.month d.day 0⟩
  simp only [generate_event_block]
  rw [addMinutes_nine_thirty]

/-- Witness for C1 at the valid row date string of 15 March 2024. -/
theorem event_block_time_window_witness :
    generate_event_block "X" ⟨2024, 3, 15, 0, 0, 0⟩ (uidEx 0) nowEx =
      ["BEGIN:VEVENT",
       "UID:" ++ uidEx 0,
       "DTSTAMP:" ++ format_ics_date nowEx,
       "DTSTART;TZID=America/Sao_Paulo:" ++ format_ics_date ⟨2024, 3, 15, 9, 0, 0⟩,
       "DTEND;TZID=America/Sao_Paulo:" ++ format_ics_date ⟨2024, 3, 15, 9, 30, 0⟩,
       "SUMMARY:" ++ "X",
       "STATUS:CONFIRMED",
       "CLASS:PUBLIC",
       "BEGIN:VALARM",
       "ACTION:DISPLAY",
       "TRIGGER;RELATED=START:-PT15M",
       "DESCRIPTION:Lembrete gerado via script CSV",
       "END:VALARM",
       "END:VEVENT"]
    ∧ addMinutes ⟨2024, 3, 15, 9, 0, 0⟩ 30 = ⟨2024, 3, 15, 9, 30, 0⟩ :=
  event_block_time_window "15/03/2024" ⟨2024, 3, 15, 0, 0, 0⟩ "X" (uidEx 0) nowEx
    (by decide)

/-- C2: date interpretation is a total function into an optional instant
that tries the day/month/4-digit-year layout first and the
year-month-day layout second (first conjunct), never raising; the two
sample strings denote the same calendar date and the non-date string
yields the no-match signal. -/
theorem parse_date_total_ordered :
    (∀ s : String, parse_date s =
      match parseDMY s with
      | some d => some d
      | none => parseYMD s)
    ∧ parse_date "15/03/2024" = some ⟨2024, 3, 15, 0, 0, 0⟩
    ∧ parse_date "2024-03-15" = some ⟨2024, 3, 15, 0, 0, 0⟩
    ∧ parse_date "not-a-date" = none := by
  refine ⟨fun s => ?_, by decide, by decide, by decide⟩
  cases h : parseDMY s with
  | some d => simp [parse_date, tryFormats, strptime, h]
  | none => cases h2 : parseYMD s <;> simp [parse_date, tryFormats, strptime, h, h2]

/-- C3: assembling zero event entries yields exactly the header lines,
one timezone block (contained in `icsHeader`) and the terminating line;
assembling the blocks of N builder calls places exactly those N blocks —
in the given order, as the structural equality shows — between the
header and the terminator, and the assembled document contains exactly N
`BEGIN:VEVENT` block openings. -/
theorem assemble_document_spec :
    generate_ics_structure [] = icsHeader ++ ["END:VCALENDAR"]
    ∧ ∀ params : List ((String × PyDateTime) × String × PyDateTime),
        generate_ics_structure
            (List.flatten (params.map
              (fun p => generate_event_block p.1.1 p.1.2 p.2.1 p.2.2)))
          = icsHeader ++
            List.flatten (params.map
              (fun p => generate_event_block p.1.1 p.1.2 p.2.1 p.2.2)) ++
            ["END:VCALENDAR"]
        ∧ countLine "BEGIN:VEVENT"
            (generate_ics_structure
              (List.flatten (params.map
                (fun p => generate_event_block p.1.1 p.1.2 p.2.1 p.2.2))))
          = params.length := by
  refine ⟨rfl, fun params => ⟨rfl, ?_⟩⟩
  have hjoin := countLine_join_blocks
    (fun p => generate_event_block p.1.1 p.1.2 p.2.1 p.2.2)
    (fun p => countLine_vevent_block p.1.1 p.1.2 p.2.1 p.2.2) params
  have hhead : countLine "BEGIN:VEVENT" icsHeader = 0 := by decide
  have hterm : countLine "BEGIN:VEVENT" ["END:VCALENDAR"] = 0 := by decide
  simp only [generate_ics_structure, countLine, List.countP_append] at hjoin hhead hterm ⊢
  rw [hjoin, hhead, hterm]
  omega

/-- C4: on the four scenario rows with default subject "Evento Importado",
the run accepts exactly 2 rows; the event list consists of precisely the
two blocks of the accepted rows — the second one carrying the default
subject — so rows 3 (empty date) and 4 (unparseable date) contribute no
event entries.  Quantifying over the UID draws and the wall clock keeps
the result independent of those effects. -/
theorem scenario_end_to_end (uidStream : Nat → String) (now : PyDateTime) :
    processCsvRows "Assunto" "Data" "Evento Importado" uidStream now scenarioRows
      = .ok (generate_event_block "Dentist" ⟨2024, 5, 20, 0, 0, 0⟩ (uidStream 0) now ++
          generate_event_block "Evento Importado" ⟨2024, 5, 21, 0, 0, 0⟩
            (uidStream 1) now, 2) :=
  rfl

/-- C5 counterexample: a malformed row shape does escape the
row-processing loop.  With header `Assunto;Data` and the one-field data
row `Dentist`, `DictReader` fills the missing `Data` cell with `None`;
`v.strip()` in `row_clean` then raises `AttributeError`, which is caught
only by the top-level generic handler — the run aborts fatally with no
output instead of skipping the row and continuing. -/
theorem short_row_aborts_run :
    process_csv (some [asciiBytes "Assunto;Data", asciiBytes "Dentist"]) ';'
      "Assunto" "Data" "Evento Importado" uidEx nowEx
      = ⟨none, some "AttributeError", 0⟩ := by
  decide

/-- C5 amended: for rows whose every (truthy-keyed) cell value is present
— i.e. excluding malformed row shapes, whose missing cells raise an
uncaught `AttributeError` that terminates the run — row-level problems
(missing/empty date, unparseable date, missing/empty subject) never
escape the loop: the loop runs to completion and accepts exactly the
rows whose per-row outcome is ACCEPTED, skipping the rest. -/
theorem row_errors_never_escape (tSubj tDate dflt : String)
    (uidStream : Nat → String) (now : PyDateTime) (rows : List RawRow) (idx : Nat)
    (h : ∀ r ∈ rows, rowOutcome tDate r ≠ RowOutcome.fatalShape) :
    ∃ ls, processRows tSubj tDate dflt uidStream now rows idx
      = .ok (ls, rows.countP (fun r => decide (rowOutcome tDate r = RowOutcome.accepted))) := by
  induction rows generalizing idx with
  | nil => exact ⟨[], rfl⟩
  | cons r rest ih =>
    have hr := h r (List.mem_cons_self r rest)
    have hrest : ∀ r' ∈ rest, rowOutcome tDate r' ≠ RowOutcome.fatalShape :=
      fun r' hm => h r' (List.mem_cons_of_mem r hm)
    cases hc : rowClean r with
    | exn e => exact absurd (by simp [rowOutcome, hc]) hr
    | ok d =>
      cases hd : dictGet d tDate with
      | none =>
        obtain ⟨ls, hls⟩ := ih idx hrest
        have hout : rowOutcome tDate r = RowOutcome.skippedNoDate := by
          simp [rowOutcome, hc, hd]
        refine ⟨ls, ?_⟩
        simp [processRows, hc, hd, hls, List.countP_cons, hout]
      | some ds =>
        by_cases hds : ds = ""
        · obtain ⟨ls, hls⟩ := ih idx hrest
          have hout : rowOutcome tDate r = RowOutcome.skippedNoDate := by
            simp [rowOutcome, hc, hd, hds]
          refine ⟨ls, ?_⟩
          simp [processRows, hc, hd, hds, hls, List.countP_cons, hout]
        · cases hp : parse_date ds with
          | none =>
            obtain ⟨ls, hls⟩ := ih idx hrest
            have hout : rowOutcome tDate r = RowOutcome.skippedInvalidDate := by
              simp [rowOutcome, hc, hd, hds, hp]
            refine ⟨ls, ?_⟩
            simp [processRows, hc, hd, hds, hp, hls, List.countP_cons, hout]
          | some dt =>
            obtain ⟨ls, hls⟩ := ih (idx + 1) hrest
            have hout : rowOutcome tDate r = RowOutcome.accepted := by
              simp [rowOutcome, hc, hd, hds, hp]
            refine ⟨generate_event_block
              (match dictGet d tSubj with
               | none => dflt
               | some v => if v = "" then dflt else v) dt (uidStream idx) now ++ ls, ?_⟩
            simp [processRows, hc, hd, hds, hp, hls, List.countP_cons, hout]

/-- Witness for the amended C5 on the four scenario rows: all four are
well-shaped, the loop completes, and the accepted count is the number of
rows with outcome ACCEPTED. -/
theorem row_errors_never_escape_witness :
    (∀ r ∈ scenarioRows, rowOutcome "data" r ≠ RowOutcome.fatalShape)
    ∧ ∃ ls, processRows "assunto" "data" "Evento Importado" uidEx nowEx scenarioRows 0
        = .ok (ls, scenarioRows.countP
            (fun r => decide (rowOutcome "data" r = RowOutcome.accepted))) :=
  ⟨by decide,
   row_errors_never_escape "assunto" "data" "Evento Importado" uidEx nowEx
     scenarioRows 0 (by decide)⟩

/-- C8 counterexample: the configured target names are NOT normalized by
the same operation as the header names — the header key is stripped and
lowercased, the configured name only lowercased (src/main.py lines
86-87).  With header field `Assunto` and configured subject column
` Assunto ` (differing only in surrounding whitespace), the lookup
misses: the cleaned row holds key `assunto`, the target is ` assunto `,
`dict.get` returns nothing, and the default subject is substituted even
though the row has a subject value. -/
theorem config_whitespace_not_matched :
    rowClean [(some "Assunto", some "Dentist")] = .ok [("assunto", "Dentist")]
    ∧ pythonLower " Assunto " = " assunto "
    ∧ dictGet [("assunto", "Dentist")] (pythonLower " Assunto ") = none
    ∧ processCsvRows " Assunto " "Data" "Evento Importado" uidEx nowEx
        [[(some "Assunto", some "Dentist"), (some "Data", some "20/05/2024")]]
      = .ok (generate_event_block "Evento Importado" ⟨2024, 5, 20, 0, 0, 0⟩
          (uidEx 0) nowEx, 1) := by
  decide

/-- C8 amended: header/row keys are normalized by strip-then-lowercase
while the configured target names are only lowercased, so a row value is
found exactly when the lowercased configured name equals the
stripped-and-lowercased header name — matching is case-insensitive on
both sides but whitespace-insensitive only in the header name. -/
theorem header_normalization_matching (k v cfg : String) (hk : k ≠ "")
    (hmatch : pythonLower cfg = pythonLower (pythonStrip k)) :
    rowClean [(some k, some v)] = .ok [(pythonLower (pythonStrip k), pythonStrip v)]
    ∧ dictGet [(pythonLower (pythonStrip k), pythonStrip v)] (pythonLower cfg)
      = some (pythonStrip v) := by
  constructor
  · simp [rowClean, rowCleanAux, hk, dictInsert]
  · simp [dictGet, List.find?, hmatch]

/-- Witness for the amended C8: header name ` ASSUNTO ` and configured
name `assunto` differ in case and in header-side whitespace, and the
value is found. -/
theorem header_normalization_matching_witness :
    rowClean [(some " ASSUNTO ", some "Dentist")]
      = .ok [(pythonLower (pythonStrip " ASSUNTO "), pythonStrip "Dentist")]
    ∧ dictGet [(pythonLower (pythonStrip " ASSUNTO "), pythonStrip "Dentist")]
        (pythonLower "assunto") = some (pythonStrip "Dentist") :=
  header_normalization_matching " ASSUNTO " "Dentist" "assunto" (by decide) (by decide)

/-- C6 counterexample: an input file whose contents fail to decode under
UTF-8 is NOT always retried under cp1252.  In `badTailFile` the header
and first data record are valid UTF-8, so the probe on src/main.py line
77 succeeds; the lone 0xE9 byte on the third line then raises
`UnicodeDecodeError` inside the row loop, outside the inner
`except UnicodeDecodeError` handler, and the run aborts fatally with no
output — even though the whole file decodes under cp1252. -/
theorem late_decode_failure_not_retried :
    decodeAll utf8DecodeLine badTailFile = none
    ∧ (decodeAll cp1252DecodeLine badTailFile).isSome = true
    ∧ process_csv (some badTailFile) ';' "Assunto" "Data" "Evento Importado"
        uidEx nowEx
      = ⟨none, some "UnicodeDecodeError: utf-8", 0⟩ := by
  decide

/-- C6 amended: the cp1252 retry happens exactly when the decode failure
surfaces during the initial probe (header plus first non-blank data
record); in that case the run proceeds on the cp1252-decoded text, and
only if the fallback decoding also fails does the whole run abort with a
fatal input error. -/
theorem probe_failure_retries_cp1252 (delim : Char)
    (cS cD dflt : String) (uidStream : Nat → String) (now : PyDateTime)
    (lines : List ByteLine) (hprobe : probe lines = ProbeResult.decodeFail) :
    (decodeAll cp1252DecodeLine lines = none →
      process_csv (some lines) delim cS cD dflt uidStream now
        = ⟨none, some "UnicodeDecodeError: cp1252", 0⟩)
    ∧ ∀ tls, decodeAll cp1252DecodeLine lines = some tls →
        process_csv (some lines) delim cS cD dflt uidStream now
          = finishRun (runOnText delim cS cD dflt uidStream now tls) := by
  constructor
  · intro hcp
    simp [process_csv, runBody, hprobe, hcp, finishRun]
  · intro tls hcp
    simp [process_csv, runBody, hprobe, hcp]

/-- Witness for the amended C6: a file whose only line is the single
byte 0xE9 fails the UTF-8 probe, and the run is exactly the cp1252 run
on the decoded text `é`. -/
theorem probe_failure_retries_cp1252_witness :
    probe [[0xE9]] = ProbeResult.decodeFail
    ∧ process_csv (some [[0xE9]]) ';' "Assunto" "Data" "E" uidEx nowEx
        = finishRun (runOnText ';' "Assunto" "Data" "E" uidEx nowEx
            [⟨[Char.ofNat 0xE9]⟩]) :=
  ⟨by decide,
   (probe_failure_retries_cp1252 ';' "Assunto" "Data" "E" uidEx nowEx [[0xE9]]
      (by decide)).2 [⟨[Char.ofNat 0xE9]⟩] (by decide)⟩

/-- C7: a missing input file yields a fatal run that writes nothing; and
since the document is built wholly in memory and written once after the
loop, every aborted run — whatever the fatal condition — leaves the
output destination unwritten. -/
theorem no_output_on_failure (delim : Char) (cS cD dflt : String)
    (uidStream : Nat → String) (now : PyDateTime) :
    ((process_csv none delim cS cD dflt uidStream now).written = none
      ∧ (process_csv none delim cS cD dflt uidStream now).fatal.isSome = true)
    ∧ ∀ lines : List ByteLine,
        (process_csv (some lines) delim cS cD dflt uidStream now).fatal.isSome = true →
        (process_csv (some lines) delim cS cD dflt uidStream now).written = none := by
  refine ⟨⟨rfl, rfl⟩, fun lines hfatal => ?_⟩
  cases hb : runBody delim cS cD dflt uidStream now lines with
  | exn e => simp [process_csv, finishRun, hb]
  | ok val =>
    obtain ⟨content, n⟩ := val
    simp [process_csv, finishRun, hb] at hfatal

/-- Witness for C7: the missing-file case and an aborted run (empty
input file, whose header read raises `StopIteration`) both write
nothing. -/
theorem no_output_on_failure_witness :
    (process_csv none ';' "Assunto" "Data" "E" uidEx nowEx).written = none
    ∧ (process_csv (some ([] : List ByteLine)) ';' "Assunto" "Data" "E"
        uidEx nowEx).written = none :=
  ⟨(no_output_on_failure ';' "Assunto" "Data" "E" uidEx nowEx).1.1,
   (no_output_on_failure ';' "Assunto" "Data" "E" uidEx nowEx).2 [] (by decide)⟩

/-- C9: the unique identifier of an event block is taken solely from the
fresh `uuid.uuid4()` draw of that call — never from subject or date — so
under the uuid4 contract that distinct draws are distinct (an injective
draw stream), any two builder calls, even with identical subject and
date, produce blocks with distinct UID lines. -/
theorem uid_fresh_distinct (uidStream : Nat → String)
    (hinj : Function.Injective uidStream) (i j : Nat) (hij : i ≠ j)
    (s1 s2 : String) (d1 d2 : PyDateTime) (n1 n2 : PyDateTime) :
    uidOf (generate_event_block s1 d1 (uidStream i) n1)
      ≠ uidOf (generate_event_block s2 d2 (uidStream j) n2) := by
  intro h
  apply hij
  apply hinj
  have h2 : some ("UID:" ++ uidStream i) = some ("UID:" ++ uidStream j) := h
  exact string_append_left_cancel (Option.some.inj h2)

/-- Witness for C9: an injective concrete draw stream and two calls with
identical subject and date give distinct UID lines. -/
theorem uid_fresh_distinct_witness :
    uidOf (generate_event_block "A" nowEx (uidEx 0) nowEx)
      ≠ uidOf (generate_event_block "A" nowEx (uidEx 1) nowEx) :=
  uid_fresh_distinct uidEx
    (fun a b hab => by
      have h2 := congrArg (fun s : String => s.data.length) hab
      simpa [uidEx] using h2)
    0 1 (by decide) "A" "A" nowEx nowEx nowEx nowEx

/-- C10: the subject is emitted as `"SUMMARY:" ++ subject` with no
escaping of commas, semicolons, backslashes or line breaks (first
conjunct); hence a subject containing a line break — which survives
value cleaning, since `strip` removes only outer whitespace (last
conjunct) — produces an event block one of whose entries contains a raw
line break, so after CRLF joining the subject spans multiple physical
lines, breaking the one-property-per-line structure (middle conjunct). -/
theorem summary_line_unescaped (subject : String) (d : PyDateTime)
    (uid : String) (now : PyDateTime) :
    (generate_event_block subject d uid now).get? 5 = some ("SUMMARY:" ++ subject)
    ∧ ('\n' ∈ subject.data →
        ∃ l ∈ generate_event_block subject d uid now, '\n' ∈ l.data)
    ∧ pythonStrip ⟨['a', '\n', 'b']⟩ = ⟨['a', '\n', 'b']⟩ := by
  refine ⟨rfl, fun hnl => ⟨"SUMMARY:" ++ subject, ?_, ?_⟩, by decide⟩
  · simp [generate_event_block]
  · rw [string_data_append]
    exact List.mem_append_right _ hnl

/-- Witness for C10 at the subject `a\nb`. -/
theorem summary_line_unescaped_witness :
    ∃ l ∈ generate_event_block ⟨['a', '\n', 'b']⟩ nowEx (uidEx 0) nowEx,
      '\n' ∈ l.data :=
  (summary_line_unescaped ⟨['a', '\n', 'b']⟩ nowEx (uidEx 0) nowEx).2.1 (by decide)
